import Mathlib

/-!
Shallow embedding of `src/send-bulk-test.py`, a linear test script that
builds a fixed batch of WhatsApp and email notification records, POSTs
them to a bulk-send endpoint, sleeps, GETs message logs and site metrics,
and prints summaries.  Network effects are modelled by an environment
(`Env`) that supplies the outcome of each of the three HTTP calls, and
`main` returns the script's exit code together with the trace of events
(build, HTTP requests, sleep, prints) it performs.
-/

/-- Constant `API_URL` from the script. -/
def API_URL : String := "http://localhost:8080/api/v1"

/-- Constant `API_KEY` from the script (the static site key). -/
def API_KEY : String :=
  "Q8S7MnPJSHZlx2Sfz9NqV1mkKCWY188auuVEfyASoh8yCQYMwntUnt3j3Ud7nNErq_XULuYqDGKdMMTVBCy83g"

/-- Constant `PHONE_NUMBERS` from the script. -/
def PHONE_NUMBERS : List String :=
  [ "+918576882906"
  , "+918910261784"
  , "+917044345461"
  , "+919836858910"
  , "+917003999234"
  , "+918335982196"
  , "+919804969862" ]

/-- Constant `EMAIL_ADDRESSES` from the script. -/
def EMAIL_ADDRESSES : List String :=
  [ "sourav@clapgrow.com"
  , "souravns1997@gmail.com"
  , "souravsingh2609@gmail.com"
  , "singh.sourav2609@gmail.com" ]

/-- Constant `EMAIL_SUBJECT` from the script. -/
def EMAIL_SUBJECT : String := "Test Bulk Notification"

/-- Constant `EMAIL_BODY` from the script. -/
def EMAIL_BODY : String :=
  "Hello! This is a test bulk email notification. Testing the efficiency of the notification system."

/-- Constant `WHATSAPP_BODY` from the script. -/
def WHATSAPP_BODY : String :=
  "Hello! This is a test bulk WhatsApp notification. Testing the efficiency of the notification system."

/-- A notification record as built by `build_bulk_notifications`.
WhatsApp records carry only `channel`, `recipient`, `body`; email records
additionally carry `subject` and `isHtml` (modelled with `Option`). -/
structure NotificationRecord where
  channel : String
  recipient : String
  subject : Option String
  body : String
  isHtml : Option Bool
deriving DecidableEq, Repr, Inhabited

/-- `build_bulk_notifications` from the script: one WHATSAPP record per
phone number, then one EMAIL record per email address. -/
def build_bulk_notifications : List NotificationRecord :=
  (PHONE_NUMBERS.map fun phone =>
    { channel := "WHATSAPP"
    , recipient := phone
    , subject := none
    , body := WHATSAPP_BODY
    , isHtml := none })
  ++ (EMAIL_ADDRESSES.map fun email =>
    { channel := "EMAIL"
    , recipient := email
    , subject := some EMAIL_SUBJECT
    , body := EMAIL_BODY
    , isHtml := some false })

/-- The JSON body of the bulk POST: the records under the "notifications" key. -/
structure BulkPayload where
  notifications : List NotificationRecord
deriving DecidableEq, Repr

/-- An HTTP request as issued by the script: method, URL, headers, query
parameters and an optional JSON body. -/
structure HttpRequest where
  method : String
  url : String
  headers : List (String × String)
  params : List (String × Nat)
  jsonBody : Option BulkPayload
deriving DecidableEq, Repr

/-- The request built by `send_bulk_notifications` (before the response is
examined): POST to `API_URL ++ "/notifications/send/bulk"` with the
Content-Type and X-Site-Key headers and the notifications payload. -/
def bulkRequest (notifications : List NotificationRecord) : HttpRequest :=
  { method := "POST"
  , url := API_URL ++ "/notifications/send/bulk"
  , headers := [("Content-Type", "application/json"), ("X-Site-Key", API_KEY)]
  , params := []
  , jsonBody := some { notifications := notifications } }

/-- The request built by `get_message_logs size`: GET on
`API_URL ++ "/messages/logs"` with the X-Site-Key header and a `size` parameter. -/
def logsRequest (size : Nat) : HttpRequest :=
  { method := "GET"
  , url := API_URL ++ "/messages/logs"
  , headers := [("X-Site-Key", API_KEY)]
  , params := [("size", size)]
  , jsonBody := none }

/-- The request built by `get_metrics`: GET on
`API_URL ++ "/metrics/site/summary"` with the X-Site-Key header. -/
def metricsRequest : HttpRequest :=
  { method := "GET"
  , url := API_URL ++ "/metrics/site/summary"
  , headers := [("X-Site-Key", API_KEY)]
  , params := []
  , jsonBody := none }

/-- One entry of the optional "results" array of the bulk-send response;
`messageId = none` models an absent "messageId" key. -/
structure ResultEntry where
  messageId : Option String
deriving DecidableEq, Repr

/-- The JSON object returned by the bulk-send endpoint, restricted to the
keys the script reads; `none` models an absent key. -/
structure BulkResponse where
  totalQueued : Option Int
  totalAccepted : Option Int
  messageIds : Option (List String)
  results : Option (List ResultEntry)
deriving DecidableEq, Repr

/-- One message of the logs response, restricted to the keys the script
reads; `none` models an absent key. -/
structure LogMessage where
  status : Option String
  channel : Option String
  recipient : Option String
deriving DecidableEq, Repr

/-- The JSON object returned by the logs endpoint, restricted to the keys
the script reads. -/
structure LogsResponse where
  messages : Option (List LogMessage)
  totalElements : Option Int
deriving DecidableEq, Repr

/-- The metrics response object: externally defined, only dumped by the
script, so modelled as an opaque payload. -/
structure MetricsResponse where
  body : String
deriving DecidableEq, Repr

/-- A `requests.exceptions.RequestException`: its message and the text of
the attached response, when one is attached. -/
structure RequestError where
  message : String
  responseText : Option String
deriving DecidableEq, Repr

/-- `total_queued` in `main`:
`response.get("totalQueued", response.get("totalAccepted", 0))`. -/
def total_queued (r : BulkResponse) : Int :=
  r.totalQueued.getD (r.totalAccepted.getD 0)

/-- `message_ids` in `main`: `response.get("messageIds", [])`, replaced —
when that list is falsy (empty) and a "results" key is present — by the
truthy "messageId" values of the results entries, in order. -/
def message_ids (r : BulkResponse) : List String :=
  let ids := r.messageIds.getD []
  if ids.isEmpty && r.results.isSome then
    (r.results.getD []).filterMap fun e =>
      match e.messageId with
      | some s => if s = "" then none else some s
      | none => none
  else ids

/-- `msg.get("status", "UNKNOWN")` in the counting loop of `main`. -/
def statusKey (m : LogMessage) : String := m.status.getD "UNKNOWN"

/-- `msg.get("channel", "UNKNOWN")` in the counting loop of `main`. -/
def channelKey (m : LogMessage) : String := m.channel.getD "UNKNOWN"

/-- Python `dict.get(k, 0)` on a string-to-count dict modelled as an
association list (first occurrence wins, as keys are unique in a dict). -/
def dictGet : List (String × Nat) → String → Nat
  | [], _ => 0
  | p :: rest, k => if k = p.1 then p.2 else dictGet rest k

/-- Python `d[k] = v`: replace the value at an existing key, else append
the new binding (Python dicts preserve insertion order). -/
def dictSet : List (String × Nat) → String → Nat → List (String × Nat)
  | [], k, v => [(k, v)]
  | p :: rest, k, v => if k = p.1 then (k, v) :: rest else p :: dictSet rest k v

/-- Python `k in d`. -/
def dictMem : List (String × Nat) → String → Bool
  | [], _ => false
  | p :: rest, k => if k = p.1 then true else dictMem rest k

/-- The body of `for msg in messages:` in `main`: bump the status count
unconditionally, bump the channel count only when the channel is already a
key of `channel_counts`. -/
def countStep (acc : List (String × Nat) × List (String × Nat)) (m : LogMessage) :
    List (String × Nat) × List (String × Nat) :=
  let sc := dictSet acc.1 (statusKey m) (dictGet acc.1 (statusKey m) + 1)
  let cc :=
    if dictMem acc.2 (channelKey m) then
      dictSet acc.2 (channelKey m) (dictGet acc.2 (channelKey m) + 1)
    else acc.2
  (sc, cc)

/-- The counting loop of `main`, starting from `status_counts = {}` and
`channel_counts = {"EMAIL": 0, "WHATSAPP": 0}`. -/
def countBreakdowns (msgs : List LogMessage) :
    List (String × Nat) × List (String × Nat) :=
  msgs.foldl countStep ([], [("EMAIL", 0), ("WHATSAPP", 0)])

/-- `status_counts` after the counting loop of `main`. -/
def status_counts (msgs : List LogMessage) : List (String × Nat) :=
  (countBreakdowns msgs).1

/-- `channel_counts` after the counting loop of `main`. -/
def channel_counts (msgs : List LogMessage) : List (String × Nat) :=
  (countBreakdowns msgs).2

/-- The sum of the counts held in a dict. -/
def valsSum (d : List (String × Nat)) : Nat := (d.map Prod.snd).sum

/-- Outcomes of the three HTTP calls the script can make, supplied by the
surrounding world: either a parsed JSON response or a request exception
(which also models a non-2xx status turned into an exception by
`raise_for_status`). -/
structure Env where
  bulkResult : Except RequestError BulkResponse
  logsResult : Except RequestError LogsResponse
  metricsResult : Except RequestError MetricsResponse

/-- Observable events of a run of `main`, in program order: building the
batch, issuing an HTTP request, sleeping, and the individual prints that
the claims talk about (other prints are plain fixed text). -/
inductive Event where
  | build (ns : List NotificationRecord)
  | request (r : HttpRequest)
  | sleepFor (secs : Nat)
  | printResponse (r : BulkResponse)
  | printQueued (totalQueued : Int)
  | printAvgTime (totalQueued : Int)
  | printMsgIds (shown : List String) (ellipsis : Bool)
  | printLogsReport (statusCounts channelCounts : List (String × Nat))
      (totalElements : Int) (recent : List LogMessage)
  | printFinal (m : MetricsResponse)
  | printError (e : RequestError)
deriving DecidableEq, Repr

/-- The lines printed by the `except` clause of `main`: the error, and the
attached response body when there is one. -/
def errorLines (e : RequestError) : List String :=
  ["Error sending notifications: " ++ e.message]
  ++ (match e.responseText with
      | some t => ["  Response: " ++ t]
      | none => [])

/-- The prints of `main` between a successful bulk POST and the sleep:
response dump, queued summary, the average-time line guarded by
`total_queued > 0`, and the message-IDs line guarded by the list being
truthy (non-empty), showing at most the first 5 IDs with an ellipsis
exactly when more than 5 exist. -/
def sendPhasePrints (resp : BulkResponse) : List Event :=
  [Event.printResponse resp, Event.printQueued (total_queued resp)]
  ++ (if 0 < total_queued resp then [Event.printAvgTime (total_queued resp)] else [])
  ++ (if (message_ids resp).isEmpty then []
      else [Event.printMsgIds ((message_ids resp).take 5)
              (decide (5 < (message_ids resp).length))])

/-- `main` of the script: returns the exit code (0 on full success, 1 when
a request fails) and the trace of events, mirroring the Python control
flow — build, POST bulk, summarise, sleep 5, GET logs, summarise, GET
metrics, dump; the `except` clause prints the error and returns 1. -/
def mainRun (env : Env) : Nat × List Event :=
  let ns := build_bulk_notifications
  let t0 := [Event.build ns, Event.request (bulkRequest ns)]
  match env.bulkResult with
  | .error e => (1, t0 ++ [Event.printError e])
  | .ok resp =>
    let t1 := t0 ++ sendPhasePrints resp
      ++ [Event.sleepFor 5, Event.request (logsRequest 50)]
    match env.logsResult with
    | .error e => (1, t1 ++ [Event.printError e])
    | .ok logs =>
      let msgs := logs.messages.getD []
      let t2 := t1 ++
        [ Event.printLogsReport (status_counts msgs) (channel_counts msgs)
            (logs.totalElements.getD 0) (msgs.take 5)
        , Event.request metricsRequest ]
      match env.metricsResult with
      | .error e => (1, t2 ++ [Event.printError e])
      | .ok m => (0, t2 ++ [Event.printFinal m])

/-- The HTTP requests issued during a trace, in order. -/
def requestsOf (tr : List Event) : List HttpRequest :=
  tr.filterMap fun e =>
    match e with
    | .request r => some r
    | _ => none

/-- The sleep events of a trace. -/
def sleepsOf (tr : List Event) : List Event :=
  tr.filter fun e =>
    match e with
    | .sleepFor _ => true
    | _ => false

/-- The six steps of the script's linear flow, for stating the temporal
claim; `printSummaries` is the final summary block (metrics dump and
completion banner) that closes a successful run. -/
inductive CoreStep where
  | build
  | postBulk
  | sleep
  | getLogs
  | getMetrics
  | printSummaries
deriving DecidableEq, Repr

/-- Classify an event as one of the six core steps; requests are
classified by their endpoint URL, intermediate prints are not core steps. -/
def coreStepOf (e : Event) : Option CoreStep :=
  match e with
  | .build _ => some CoreStep.build
  | .request r =>
      if r.url = API_URL ++ "/notifications/send/bulk" then some CoreStep.postBulk
      else if r.url = API_URL ++ "/messages/logs" then some CoreStep.getLogs
      else if r.url = API_URL ++ "/metrics/site/summary" then some CoreStep.getMetrics
      else none
  | .sleepFor _ => some CoreStep.sleep
  | .printFinal _ => some CoreStep.printSummaries
  | _ => none

/-- The three endpoint URLs that occur in the script's request builders. -/
def scriptEndpointURLs : List String :=
  [(bulkRequest build_bulk_notifications).url, (logsRequest 50).url, metricsRequest.url]

/-- The distinct endpoint URLs requested during a run. -/
def endpointURLsOf (env : Env) : List String :=
  ((requestsOf (mainRun env).2).map HttpRequest.url).dedup

/-- Sample bulk-send response used for concrete runs. -/
def sampleResp : BulkResponse :=
  { totalQueued := some 11
  , totalAccepted := none
  , messageIds := none
  , results := some [⟨some "a1"⟩, ⟨none⟩, ⟨some ""⟩, ⟨some "b2"⟩] }

/-- Sample logs response used for concrete runs. -/
def sampleLogs : LogsResponse :=
  { messages := some
      [ ⟨some "SENT", some "EMAIL", some "sourav@clapgrow.com"⟩
      , ⟨none, some "SMS", none⟩
      , ⟨some "SENT", some "WHATSAPP", some "+918576882906"⟩ ]
  , totalElements := some 3 }

/-- Sample metrics response used for concrete runs. -/
def sampleMetrics : MetricsResponse := ⟨"metrics-json"⟩

/-- Sample request exception with an attached response body. -/
def sampleErr : RequestError := ⟨"401 Client Error", some "invalid site key"⟩

/-- Environment in which all three HTTP calls succeed. -/
def envAllOk : Env :=
  { bulkResult := Except.ok sampleResp
  , logsResult := Except.ok sampleLogs
  , metricsResult := Except.ok sampleMetrics }

/-- Environment in which the bulk POST fails. -/
def envBulkErr : Env :=
  { bulkResult := Except.error sampleErr
  , logsResult := Except.ok sampleLogs
  , metricsResult := Except.ok sampleMetrics }

/-- Environment in which the logs GET fails. -/
def envLogsErr : Env :=
  { bulkResult := Except.ok sampleResp
  , logsResult := Except.error sampleErr
  , metricsResult := Except.ok sampleMetrics }

/-- Environment in which the metrics GET fails. -/
def envMetricsErr : Env :=
  { bulkResult := Except.ok sampleResp
  , logsResult := Except.ok sampleLogs
  , metricsResult := Except.error sampleErr }

lemma dictGet_dictSet (d : List (String × Nat)) (k : String) (v : Nat) (s : String) :
    dictGet (dictSet d k v) s = if s = k then v else dictGet d s := by
  induction d with
  | nil => simp [dictSet, dictGet]
  | cons p rest ih =>
    by_cases hk : k = p.1
    · by_cases hs : s = k
      · simp [dictSet, dictGet, hk, hs]
      · have hsp : ¬ s = p.1 := by rw [← hk]; exact hs
        simp [dictSet, dictGet, hk, hs, hsp]
    · by_cases hs : s = p.1
      · have hsk : ¬ s = k := by
          intro h
          exact hk (h ▸ hs)
        have hpk : ¬ p.1 = k := fun h => hk h.symm
        simp [dictSet, dictGet, hk, hs, hsk, hpk]
      · simp [dictSet, dictGet, hk, hs, ih]

lemma valsSum_dictSet_bump (d : List (String × Nat)) (k : String) :
    valsSum (dictSet d k (dictGet d k + 1)) = valsSum d + 1 := by
  induction d with
  | nil => simp [dictSet, dictGet, valsSum]
  | cons p rest ih =>
    by_cases hk : k = p.1
    · simp [dictSet, dictGet, valsSum, hk]
      omega
    · simp only [valsSum, List.map_cons, List.sum_cons] at ih ⊢
      simp [dictSet, dictGet, hk]
      omega

lemma dictMem_dictSet_of_mem (d : List (String × Nat)) (k : String) (v : Nat)
    (h : dictMem d k = true) (s : String) :
    dictMem (dictSet d k v) s = dictMem d s := by
  induction d with
  | nil => simp [dictMem] at h
  | cons p rest ih =>
    by_cases hk : k = p.1
    · subst hk
      by_cases hs : s = p.1 <;> simp [dictSet, dictMem, hs]
    · simp [dictMem, hk] at h
      by_cases hs : s = p.1 <;> simp [dictSet, dictMem, hk, hs, ih h]

lemma foldl_countStep_fst_sum (msgs : List LogMessage) :
    ∀ sc cc, valsSum (msgs.foldl countStep (sc, cc)).1 = valsSum sc + msgs.length := by
  induction msgs with
  | nil => intro sc cc; simp
  | cons m rest ih =>
    intro sc cc
    simp only [List.foldl_cons, countStep]
    rw [ih, valsSum_dictSet_bump]
    simp only [List.length_cons]
    omega

lemma foldl_countStep_fst_get (msgs : List LogMessage) :
    ∀ sc cc s, dictGet (msgs.foldl countStep (sc, cc)).1 s
      = dictGet sc s + msgs.countP (fun m => statusKey m == s) := by
  induction msgs with
  | nil => intro sc cc s; simp
  | cons m rest ih =>
    intro sc cc s
    simp only [List.foldl_cons, countStep]
    rw [ih, dictGet_dictSet, List.countP_cons]
    by_cases hs : s = statusKey m
    · simp [hs]
      omega
    · have hms : ¬ (statusKey m = s) := fun h => hs h.symm
      simp [hs, hms]

lemma foldl_countStep_snd_sum (msgs : List LogMessage) :
    ∀ sc cc, (∀ k, dictMem cc k = true ↔ (k = "EMAIL" ∨ k = "WHATSAPP")) →
      valsSum (msgs.foldl countStep (sc, cc)).2
        = valsSum cc
          + msgs.countP (fun m => channelKey m == "EMAIL" || channelKey m == "WHATSAPP") := by
  induction msgs with
  | nil => intro sc cc _; simp
  | cons m rest ih =>
    intro sc cc h
    simp only [List.foldl_cons, countStep]
    by_cases hm : dictMem cc (channelKey m) = true
    · have hinv : ∀ k,
          dictMem (dictSet cc (channelKey m) (dictGet cc (channelKey m) + 1)) k = true
            ↔ (k = "EMAIL" ∨ k = "WHATSAPP") := by
        intro k
        rw [dictMem_dictSet_of_mem cc (channelKey m) _ hm k]
        exact h k
      have hpred : (channelKey m == "EMAIL" || channelKey m == "WHATSAPP") = true := by
        rcases (h (channelKey m)).1 hm with h1 | h1 <;> simp [h1]
      rw [if_pos hm, ih _ _ hinv, valsSum_dictSet_bump, List.countP_cons, hpred]
      simp only [if_pos rfl, if_pos trivial]
      omega
    · have hpred : (channelKey m == "EMAIL" || channelKey m == "WHATSAPP") = false := by
        by_contra hc
        have htrue : (channelKey m == "EMAIL" || channelKey m == "WHATSAPP") = true :=
          eq_true_of_ne_false hc
        have hor : channelKey m = "EMAIL" ∨ channelKey m = "WHATSAPP" := by
          simpa using htrue
        exact hm ((h (channelKey m)).2 hor)
      rw [if_neg hm, ih _ _ h, List.countP_cons, hpred]
      simp only [Bool.false_eq_true, if_false]
      omega

lemma dictMem_initChannels (k : String) :
    dictMem [("EMAIL", 0), ("WHATSAPP", 0)] k = true ↔ (k = "EMAIL" ∨ k = "WHATSAPP") := by
  by_cases h1 : k = "EMAIL"
  · simp [dictMem, h1]
  · by_cases h2 : k = "WHATSAPP" <;> simp [dictMem, h1, h2]

lemma coreStepOf_bulk (ns : List NotificationRecord) :
    coreStepOf (Event.request (bulkRequest ns)) = some CoreStep.postBulk := rfl

lemma coreStepOf_logs (n : Nat) :
    coreStepOf (Event.request (logsRequest n)) = some CoreStep.getLogs := rfl

lemma coreStepOf_metrics :
    coreStepOf (Event.request metricsRequest) = some CoreStep.getMetrics := rfl

lemma coreSteps_sendPhasePrints (resp : BulkResponse) :
    (sendPhasePrints resp).filterMap coreStepOf = [] := by
  unfold sendPhasePrints
  by_cases h1 : 0 < total_queued resp <;>
    by_cases h2 : (message_ids resp).isEmpty <;>
      simp [h1, h2, coreStepOf]

lemma requestsOf_sendPhasePrints (resp : BulkResponse) :
    requestsOf (sendPhasePrints resp) = [] := by
  unfold sendPhasePrints
  by_cases h1 : 0 < total_queued resp <;>
    by_cases h2 : (message_ids resp).isEmpty <;>
      simp [h1, h2, requestsOf]

lemma sleepsOf_sendPhasePrints (resp : BulkResponse) :
    sleepsOf (sendPhasePrints resp) = [] := by
  unfold sendPhasePrints
  by_cases h1 : 0 < total_queued resp <;>
    by_cases h2 : (message_ids resp).isEmpty <;>
      simp [h1, h2, sleepsOf]

lemma mem_sendPhasePrints (e : Event) (resp : BulkResponse)
    (h : e ∈ sendPhasePrints resp) :
    e = Event.printResponse resp
    ∨ e = Event.printQueued (total_queued resp)
    ∨ (e = Event.printAvgTime (total_queued resp) ∧ 0 < total_queued resp)
    ∨ (e = Event.printMsgIds ((message_ids resp).take 5)
          (decide (5 < (message_ids resp).length))
        ∧ message_ids resp ≠ []) := by
  unfold sendPhasePrints at h
  by_cases h1 : 0 < total_queued resp <;>
    by_cases h2 : (message_ids resp).isEmpty <;>
      simp [h1, h2] at h <;>
        rcases h with h | h | h | h <;>
          simp_all [List.isEmpty_iff]

lemma requestsOf_append (a b : List Event) :
    requestsOf (a ++ b) = requestsOf a ++ requestsOf b := by
  simp [requestsOf]

lemma requestsOf_nil : requestsOf [] = [] := rfl

lemma requestsOf_cons_build (ns : List NotificationRecord) (tr : List Event) :
    requestsOf (Event.build ns :: tr) = requestsOf tr := rfl

lemma requestsOf_cons_request (r : HttpRequest) (tr : List Event) :
    requestsOf (Event.request r :: tr) = r :: requestsOf tr := rfl

lemma requestsOf_cons_sleep (n : Nat) (tr : List Event) :
    requestsOf (Event.sleepFor n :: tr) = requestsOf tr := rfl

lemma requestsOf_cons_printError (e : RequestError) (tr : List Event) :
    requestsOf (Event.printError e :: tr) = requestsOf tr := rfl

lemma requestsOf_cons_printLogsReport (a b : List (String × Nat)) (n : Int)
    (rc : List LogMessage) (tr : List Event) :
    requestsOf (Event.printLogsReport a b n rc :: tr) = requestsOf tr := rfl

lemma requestsOf_cons_printFinal (m : MetricsResponse) (tr : List Event) :
    requestsOf (Event.printFinal m :: tr) = requestsOf tr := rfl

lemma sleepsOf_append (a b : List Event) :
    sleepsOf (a ++ b) = sleepsOf a ++ sleepsOf b := by
  simp [sleepsOf]

lemma sleepsOf_nil : sleepsOf [] = [] := rfl

lemma sleepsOf_cons_build (ns : List NotificationRecord) (tr : List Event) :
    sleepsOf (Event.build ns :: tr) = sleepsOf tr := rfl

lemma sleepsOf_cons_request (r : HttpRequest) (tr : List Event) :
    sleepsOf (Event.request r :: tr) = sleepsOf tr := rfl

lemma sleepsOf_cons_sleep (n : Nat) (tr : List Event) :
    sleepsOf (Event.sleepFor n :: tr) = Event.sleepFor n :: sleepsOf tr := rfl

lemma sleepsOf_cons_printError (e : RequestError) (tr : List Event) :
    sleepsOf (Event.printError e :: tr) = sleepsOf tr := rfl

lemma sleepsOf_cons_printLogsReport (a b : List (String × Nat)) (n : Int)
    (rc : List LogMessage) (tr : List Event) :
    sleepsOf (Event.printLogsReport a b n rc :: tr) = sleepsOf tr := rfl

lemma sleepsOf_cons_printFinal (m : MetricsResponse) (tr : List Event) :
    sleepsOf (Event.printFinal m :: tr) = sleepsOf tr := rfl

lemma coreStepOf_build (ns : List NotificationRecord) :
    coreStepOf (Event.build ns) = some CoreStep.build := rfl

lemma coreStepOf_sleepFor (n : Nat) :
    coreStepOf (Event.sleepFor n) = some CoreStep.sleep := rfl

lemma coreStepOf_printFinal (m : MetricsResponse) :
    coreStepOf (Event.printFinal m) = some CoreStep.printSummaries := rfl

lemma coreStepOf_printLogsReport (a b : List (String × Nat)) (n : Int)
    (rc : List LogMessage) :
    coreStepOf (Event.printLogsReport a b n rc) = none := rfl

lemma coreStepOf_printError (e : RequestError) :
    coreStepOf (Event.printError e) = none := rfl

lemma request_not_mem_sendPhasePrints (r : HttpRequest) (resp : BulkResponse) :
    Event.request r ∉ sendPhasePrints resp := by
  intro h
  rcases mem_sendPhasePrints _ _ h with h | h | ⟨h, _⟩ | ⟨h, _⟩ <;> simp at h

lemma requestsOf_mainRun (env : Env) :
    requestsOf (mainRun env).2 = [bulkRequest build_bulk_notifications]
    ∨ requestsOf (mainRun env).2
        = [bulkRequest build_bulk_notifications, logsRequest 50]
    ∨ requestsOf (mainRun env).2
        = [bulkRequest build_bulk_notifications, logsRequest 50, metricsRequest] := by
  obtain ⟨b, l, m⟩ := env
  cases b <;> cases l <;> cases m <;>
    simp [mainRun, requestsOf_append, requestsOf_sendPhasePrints,
      requestsOf_cons_build, requestsOf_cons_request, requestsOf_cons_sleep,
      requestsOf_cons_printError, requestsOf_cons_printLogsReport,
      requestsOf_cons_printFinal, requestsOf_nil]

lemma requests_mem (env : Env) (r : HttpRequest)
    (h : Event.request r ∈ (mainRun env).2) :
    r = bulkRequest build_bulk_notifications ∨ r = logsRequest 50 ∨ r = metricsRequest := by
  obtain ⟨b, l, m⟩ := env
  cases b <;> cases l <;> cases m <;>
    simp [mainRun, request_not_mem_sendPhasePrints] at h <;> tauto

/-- C1: `build_bulk_notifications` is a fixed batch builder: being a pure
constant, every call returns the same list, which holds one WHATSAPP
record per entry of `PHONE_NUMBERS` (7 records, in list order), followed
by one EMAIL record per entry of `EMAIL_ADDRESSES` (4 records, in list
order), for a total of exactly 11 records. -/
theorem C1_fixed_batch :
    build_bulk_notifications.length = 11
    ∧ PHONE_NUMBERS.length = 7
    ∧ EMAIL_ADDRESSES.length = 4
    ∧ (build_bulk_notifications.take 7).map (fun n => (n.channel, n.recipient))
        = PHONE_NUMBERS.map (fun p => ("WHATSAPP", p))
    ∧ (build_bulk_notifications.drop 7).map (fun n => (n.channel, n.recipient))
        = EMAIL_ADDRESSES.map (fun e => ("EMAIL", e)) :=
  ⟨rfl, rfl, rfl, rfl, rfl⟩

/-- C2: on a run where no request fails, the trace of `mainRun`,
restricted to the six core steps, is exactly: build the records, POST to
the bulk endpoint, sleep, GET logs, GET metrics, print the closing
summaries — each occurring exactly once and in this order, so no later
step ever happens before an earlier one. -/
theorem C2_linear_flow (env : Env)
    (hb : ∃ r, env.bulkResult = Except.ok r)
    (hl : ∃ l, env.logsResult = Except.ok l)
    (hm : ∃ m, env.metricsResult = Except.ok m) :
    (mainRun env).2.filterMap coreStepOf
      = [CoreStep.build, CoreStep.postBulk, CoreStep.sleep,
         CoreStep.getLogs, CoreStep.getMetrics, CoreStep.printSummaries] := by
  obtain ⟨r, hr⟩ := hb
  obtain ⟨l, hl⟩ := hl
  obtain ⟨m, hm⟩ := hm
  simp [mainRun, hr, hl, hm, coreSteps_sendPhasePrints,
    coreStepOf_build, coreStepOf_bulk, coreStepOf_logs, coreStepOf_metrics,
    coreStepOf_sleepFor, coreStepOf_printFinal, coreStepOf_printLogsReport]

/-- C2 witness: the fully successful sample run produces exactly the six
core steps in order. -/
theorem C2_linear_flow_witness :
    (mainRun envAllOk).2.filterMap coreStepOf
      = [CoreStep.build, CoreStep.postBulk, CoreStep.sleep,
         CoreStep.getLogs, CoreStep.getMetrics, CoreStep.printSummaries] :=
  C2_linear_flow envAllOk ⟨sampleResp, rfl⟩ ⟨sampleLogs, rfl⟩ ⟨sampleMetrics, rfl⟩

/-- C3 counterexample: on the fully successful run — which issues every
request the script can make — the list of distinct endpoint URLs
requested has exactly 3 elements, not 4. -/
theorem C3_counterexample :
    (endpointURLsOf envAllOk).length = 3
    ∧ ¬ (endpointURLsOf envAllOk).length = 4 := by
  constructor <;> decide

/-- C3 amended: the script invokes exactly three distinct endpoints of
the external HTTP API — bulk notification send, message log retrieval and
site metrics retrieval: every URL it can request is one of these three
distinct URLs, and the fully successful run requests all of them. -/
theorem C3_three_endpoints :
    (∀ env : Env, ∀ u ∈ endpointURLsOf env, u ∈ scriptEndpointURLs)
    ∧ scriptEndpointURLs.Nodup
    ∧ scriptEndpointURLs.length = 3
    ∧ endpointURLsOf envAllOk = scriptEndpointURLs := by
  refine ⟨?_, by decide, rfl, by decide⟩
  intro env u hu
  unfold endpointURLsOf at hu
  rcases requestsOf_mainRun env with h | h | h <;>
    rw [h] at hu <;>
      simp [scriptEndpointURLs] at hu ⊢ <;> tauto

/-- C3 amended witness: on the fully successful sample run, the logs URL
is among the three script endpoints. -/
theorem C3_three_endpoints_witness :
    (logsRequest 50).url ∈ scriptEndpointURLs :=
  C3_three_endpoints.1 envAllOk (logsRequest 50).url (by decide)

/-- C4: every HTTP request issued during any run carries the X-Site-Key
header with value `API_KEY`, and no request carries an X-Site-Key header
with a different value. -/
theorem C4_site_key_header (env : Env) :
    ∀ r, Event.request r ∈ (mainRun env).2 →
      ("X-Site-Key", API_KEY) ∈ r.headers
      ∧ (∀ k, ("X-Site-Key", k) ∈ r.headers → k = API_KEY) := by
  intro r hr
  rcases requests_mem env r hr with h | h | h <;> subst h <;>
    refine ⟨by decide, ?_⟩ <;>
      intro k hk <;>
        simp [bulkRequest, logsRequest, metricsRequest] at hk <;>
          tauto

/-- C4 witness: the bulk request of the fully successful sample run
carries the X-Site-Key header with value `API_KEY`. -/
theorem C4_site_key_header_witness :
    ("X-Site-Key", API_KEY) ∈ (bulkRequest build_bulk_notifications).headers
    ∧ (∀ k, ("X-Site-Key", k) ∈ (bulkRequest build_bulk_notifications).headers
        → k = API_KEY) :=
  C4_site_key_header envAllOk (bulkRequest build_bulk_notifications) (by decide)

/-- C5: the exit code is 0 exactly when all three requests succeed and 1
otherwise; when a request fails, the trace ends with the print of that
error (with the attached response body printed when present), the failing
request was issued exactly once, and no further request follows it. -/
theorem C5_error_handling (env : Env) :
    ((mainRun env).1 = 0 ∨ (mainRun env).1 = 1)
    ∧ ((mainRun env).1 = 0
        ↔ (∃ r, env.bulkResult = Except.ok r)
          ∧ (∃ l, env.logsResult = Except.ok l)
          ∧ (∃ m, env.metricsResult = Except.ok m))
    ∧ (∀ e, env.bulkResult = Except.error e →
        (mainRun env).1 = 1
        ∧ requestsOf (mainRun env).2 = [bulkRequest build_bulk_notifications]
        ∧ (∃ pre, (mainRun env).2 = pre ++ [Event.printError e]))
    ∧ (∀ r e, env.bulkResult = Except.ok r → env.logsResult = Except.error e →
        (mainRun env).1 = 1
        ∧ requestsOf (mainRun env).2
            = [bulkRequest build_bulk_notifications, logsRequest 50]
        ∧ (∃ pre, (mainRun env).2 = pre ++ [Event.printError e]))
    ∧ (∀ r l e, env.bulkResult = Except.ok r → env.logsResult = Except.ok l →
        env.metricsResult = Except.error e →
        (mainRun env).1 = 1
        ∧ requestsOf (mainRun env).2
            = [bulkRequest build_bulk_notifications, logsRequest 50, metricsRequest]
        ∧ (∃ pre, (mainRun env).2 = pre ++ [Event.printError e]))
    ∧ (∀ e : RequestError,
        ("Error sending notifications: " ++ e.message) ∈ errorLines e
        ∧ (∀ t, e.responseText = some t → ("  Response: " ++ t) ∈ errorLines e)) := by
  obtain ⟨b, l, m⟩ := env
  refine ⟨?_, ?_, ?_, ?_, ?_, ?_⟩
  · cases b <;> cases l <;> cases m <;> simp [mainRun]
  · cases b <;> cases l <;> cases m <;> simp [mainRun]
  · intro e he
    simp only at he
    subst he
    refine ⟨rfl, ?_, ?_⟩
    · simp [mainRun, requestsOf_cons_build, requestsOf_cons_request,
        requestsOf_cons_printError, requestsOf_nil]
    · exact ⟨[Event.build build_bulk_notifications,
        Event.request (bulkRequest build_bulk_notifications)], rfl⟩
  · intro r e hb he
    simp only at hb he
    subst hb
    subst he
    refine ⟨rfl, ?_, ?_⟩
    · simp [mainRun, requestsOf_append, requestsOf_sendPhasePrints,
        requestsOf_cons_build, requestsOf_cons_request, requestsOf_cons_sleep,
        requestsOf_cons_printError, requestsOf_nil]
    · refine ⟨[Event.build build_bulk_notifications,
        Event.request (bulkRequest build_bulk_notifications)]
        ++ sendPhasePrints r
        ++ [Event.sleepFor 5, Event.request (logsRequest 50)], ?_⟩
      simp [mainRun]
  · intro r l2 e hb hl he
    simp only at hb hl he
    subst hb
    subst hl
    subst he
    refine ⟨rfl, ?_, ?_⟩
    · simp [mainRun, requestsOf_append, requestsOf_sendPhasePrints,
        requestsOf_cons_build, requestsOf_cons_request, requestsOf_cons_sleep,
        requestsOf_cons_printLogsReport, requestsOf_cons_printError, requestsOf_nil]
    · refine ⟨[Event.build build_bulk_notifications,
        Event.request (bulkRequest build_bulk_notifications)]
        ++ sendPhasePrints r
        ++ [Event.sleepFor 5, Event.request (logsRequest 50)]
        ++ [Event.printLogsReport (status_counts (l2.messages.getD []))
              (channel_counts (l2.messages.getD []))
              (l2.totalElements.getD 0) ((l2.messages.getD []).take 5)
           , Event.request metricsRequest], ?_⟩
      simp [mainRun]
  · intro e
    refine ⟨by simp [errorLines], ?_⟩
    intro t ht
    simp [errorLines, ht]

/-- C5 witness: in the sample environment where the bulk POST fails, the
run returns 1, issues only the bulk request, and ends by printing the
error. -/
theorem C5_error_handling_witness :
    (mainRun envBulkErr).1 = 1
    ∧ requestsOf (mainRun envBulkErr).2 = [bulkRequest build_bulk_notifications]
    ∧ (∃ pre, (mainRun envBulkErr).2 = pre ++ [Event.printError sampleErr]) :=
  (C5_error_handling envBulkErr).2.2.1 sampleErr rfl

/-- C6: on every run whose bulk POST succeeds, the trace contains exactly
one sleep event, of the fixed duration 5 seconds, and the core steps begin
with build, POST bulk, sleep, GET logs — so the sleep falls after the
successful bulk call and before the log retrieval, independent of any
input or response. -/
theorem C6_single_sleep (env : Env) (resp : BulkResponse)
    (h : env.bulkResult = Except.ok resp) :
    sleepsOf (mainRun env).2 = [Event.sleepFor 5]
    ∧ ((mainRun env).2.filterMap coreStepOf).take 4
        = [CoreStep.build, CoreStep.postBulk, CoreStep.sleep, CoreStep.getLogs] := by
  obtain ⟨b, l, m⟩ := env
  simp only at h
  subst h
  constructor
  · cases l <;> cases m <;>
      simp [mainRun, sleepsOf_append, sleepsOf_sendPhasePrints,
        sleepsOf_cons_build, sleepsOf_cons_request, sleepsOf_cons_sleep,
        sleepsOf_cons_printError, sleepsOf_cons_printLogsReport,
        sleepsOf_cons_printFinal, sleepsOf_nil]
  · cases l <;> cases m <;>
      simp [mainRun, coreSteps_sendPhasePrints,
        coreStepOf_build, coreStepOf_bulk, coreStepOf_logs, coreStepOf_metrics,
        coreStepOf_sleepFor, coreStepOf_printFinal, coreStepOf_printLogsReport,
        coreStepOf_printError]

/-- C6 witness: the fully successful sample run sleeps exactly once, for
5 seconds, between the bulk POST and the logs GET. -/
theorem C6_single_sleep_witness :
    sleepsOf (mainRun envAllOk).2 = [Event.sleepFor 5]
    ∧ ((mainRun envAllOk).2.filterMap coreStepOf).take 4
        = [CoreStep.build, CoreStep.postBulk, CoreStep.sleep, CoreStep.getLogs] :=
  C6_single_sleep envAllOk sampleResp rfl

/-- C7: every record built by `build_bulk_notifications` has channel
WHATSAPP exactly when its recipient comes from `PHONE_NUMBERS` and
channel EMAIL exactly when its recipient comes from `EMAIL_ADDRESSES`,
with the corresponding fixed body; and `send_bulk_notifications` passes
the records through unchanged as the "notifications" key of the POST
payload. -/
theorem C7_record_shape :
    (∀ n ∈ build_bulk_notifications,
      (n.channel = "WHATSAPP" ↔ n.recipient ∈ PHONE_NUMBERS)
      ∧ (n.channel = "EMAIL" ↔ n.recipient ∈ EMAIL_ADDRESSES)
      ∧ (n.channel = "WHATSAPP" → n.body = WHATSAPP_BODY)
      ∧ (n.channel = "EMAIL" → n.body = EMAIL_BODY))
    ∧ (∀ ns, (bulkRequest ns).jsonBody = some { notifications := ns }) := by
  constructor
  · decide
  · intro ns
    rfl

/-- C7 witness: the first built record is a WHATSAPP record whose
recipient is the first phone number, and the payload of the bulk request
for the built batch carries the batch unchanged. -/
theorem C7_record_shape_witness :
    ((build_bulk_notifications.headI.channel = "WHATSAPP"
        ↔ build_bulk_notifications.headI.recipient ∈ PHONE_NUMBERS)
      ∧ (build_bulk_notifications.headI.channel = "EMAIL"
        ↔ build_bulk_notifications.headI.recipient ∈ EMAIL_ADDRESSES)
      ∧ (build_bulk_notifications.headI.channel = "WHATSAPP"
        → build_bulk_notifications.headI.body = WHATSAPP_BODY)
      ∧ (build_bulk_notifications.headI.channel = "EMAIL"
        → build_bulk_notifications.headI.body = EMAIL_BODY))
    ∧ (bulkRequest build_bulk_notifications).jsonBody
        = some { notifications := build_bulk_notifications } :=
  ⟨C7_record_shape.1 build_bulk_notifications.headI (by decide),
   C7_record_shape.2 build_bulk_notifications⟩

lemma printAvgTime_mem_sendPhasePrints {d : Int} {resp : BulkResponse}
    (h : Event.printAvgTime d ∈ sendPhasePrints resp) : 0 < d := by
  rcases mem_sendPhasePrints _ _ h with h | h | ⟨h, hpos⟩ | ⟨h, _⟩
  · simp at h
  · simp at h
  · simp at h
    rw [h]
    exact hpos
  · simp at h

/-- C8: the average-time print is guarded by `total_queued > 0`: every
average-time event of any run carries a strictly positive divisor, so the
division by `total_queued` never divides by zero; and a bulk response
lacking both "totalQueued" and "totalAccepted" defaults `total_queued`
to 0 (and hence prints no average). -/
theorem C8_division_guard (env : Env) :
    (∀ d : Int, Event.printAvgTime d ∈ (mainRun env).2 → 0 < d)
    ∧ (∀ r : BulkResponse, r.totalQueued = none → r.totalAccepted = none →
        total_queued r = 0) := by
  constructor
  · intro d hd
    obtain ⟨b, l, m⟩ := env
    cases b <;> cases l <;> cases m <;>
      simp [mainRun] at hd <;>
        exact printAvgTime_mem_sendPhasePrints hd
  · intro r h1 h2
    simp [total_queued, h1, h2]

/-- C8 witness: the sample bulk response queues 11 notifications, and the
divisor of the average-time print of the sample run is positive. -/
theorem C8_division_guard_witness : (0 : Int) < 11 :=
  (C8_division_guard envAllOk).1 11 (by decide)

/-- C9: the status-breakdown counts of `main`'s counting loop sum to
exactly the number of messages, each status being counted as
`msg.get("status", "UNKNOWN")` (so a message without a status counts
under UNKNOWN), while the channel breakdown counts exactly the messages
whose channel key is "EMAIL" or "WHATSAPP" — silently ignoring every
other channel value — so its two counts sum to at most the number of
messages. -/
theorem C9_breakdown_sums (msgs : List LogMessage) :
    valsSum (status_counts msgs) = msgs.length
    ∧ (∀ s, dictGet (status_counts msgs) s
        = msgs.countP (fun m => statusKey m == s))
    ∧ (∀ c r, statusKey ⟨none, c, r⟩ = "UNKNOWN")
    ∧ valsSum (channel_counts msgs)
        = msgs.countP (fun m =>
            channelKey m == "EMAIL" || channelKey m == "WHATSAPP")
    ∧ valsSum (channel_counts msgs) ≤ msgs.length := by
  have hch : valsSum (channel_counts msgs)
      = msgs.countP (fun m =>
          channelKey m == "EMAIL" || channelKey m == "WHATSAPP") := by
    have h := foldl_countStep_snd_sum msgs [] [("EMAIL", 0), ("WHATSAPP", 0)]
      dictMem_initChannels
    simpa [channel_counts, countBreakdowns, valsSum] using h
  refine ⟨?_, ?_, ?_, hch, ?_⟩
  · have h := foldl_countStep_fst_sum msgs [] [("EMAIL", 0), ("WHATSAPP", 0)]
    simpa [status_counts, countBreakdowns, valsSum] using h
  · intro s
    have h := foldl_countStep_fst_get msgs [] [("EMAIL", 0), ("WHATSAPP", 0)] s
    simpa [status_counts, countBreakdowns, dictGet] using h
  · intro c r
    rfl
  · rw [hch]
    exact List.countP_le_length _

lemma truthy_filterMap (rs : List ResultEntry) :
    (rs.filterMap fun e =>
      match e.messageId with
      | some s => if s = "" then none else some s
      | none => none)
    = (rs.filterMap ResultEntry.messageId).filter (fun s => s != "") := by
  induction rs with
  | nil => rfl
  | cons e rest ih =>
    cases hm : e.messageId with
    | none => simp [List.filterMap_cons, hm, ih]
    | some s =>
      by_cases hs : s = "" <;> simp [List.filterMap_cons, hm, hs, ih]

lemma printMsgIds_mem_sendPhasePrints {resp : BulkResponse}
    (h : message_ids resp ≠ []) :
    Event.printMsgIds ((message_ids resp).take 5)
        (decide (5 < (message_ids resp).length))
      ∈ sendPhasePrints resp := by
  unfold sendPhasePrints
  have hne : (message_ids resp).isEmpty = false := by
    simpa [List.isEmpty_iff] using h
  by_cases h1 : 0 < total_queued resp <;> simp [h1, hne]

lemma printMsgIds_mem_sendPhasePrints_inv {shown : List String} {ell : Bool}
    {resp : BulkResponse}
    (h : Event.printMsgIds shown ell ∈ sendPhasePrints resp) :
    message_ids resp ≠ []
    ∧ shown = (message_ids resp).take 5
    ∧ shown.length ≤ 5
    ∧ (ell = true ↔ 5 < (message_ids resp).length) := by
  rcases mem_sendPhasePrints _ _ h with h | h | ⟨h, _⟩ | ⟨h, hne⟩
  · simp at h
  · simp at h
  · simp at h
  · simp only [Event.printMsgIds.injEq] at h
    obtain ⟨h1, h2⟩ := h
    subst h1
    subst h2
    refine ⟨hne, rfl, ?_, ?_⟩
    · simp [List.length_take]
    · exact decide_eq_true_iff

/-- C10: for every bulk response, when "messageIds" is absent or empty
and "results" is present, `main` takes as message IDs exactly the truthy
"messageId" values of the results entries, in order; and whenever the ID
list is non-empty, the printed line shows exactly its first 5 IDs (hence
at most 5), with the ellipsis flag set if and only if the list has more
than 5 elements. -/
theorem C10_message_ids (env : Env) (resp : BulkResponse)
    (h : env.bulkResult = Except.ok resp) :
    (resp.messageIds.getD [] = [] → resp.results.isSome = true →
      message_ids resp
        = ((resp.results.getD []).filterMap ResultEntry.messageId).filter
            (fun s => s != ""))
    ∧ (∀ shown ell, Event.printMsgIds shown ell ∈ (mainRun env).2 →
        message_ids resp ≠ []
        ∧ shown = (message_ids resp).take 5
        ∧ shown.length ≤ 5
        ∧ (ell = true ↔ 5 < (message_ids resp).length))
    ∧ (message_ids resp ≠ [] →
        Event.printMsgIds ((message_ids resp).take 5)
            (decide (5 < (message_ids resp).length))
          ∈ (mainRun env).2) := by
  obtain ⟨b, l, m⟩ := env
  simp only at h
  subst h
  refine ⟨?_, ?_, ?_⟩
  · intro h1 h2
    rw [message_ids]
    simp only [h1, List.isEmpty_nil, h2, Bool.and_true, if_true]
    exact truthy_filterMap _
  · intro shown ell hmem
    cases l <;> cases m <;>
      simp [mainRun] at hmem <;>
        exact printMsgIds_mem_sendPhasePrints_inv hmem
  · intro hne
    cases l <;> cases m <;>
      simp [mainRun, printMsgIds_mem_sendPhasePrints hne]

/-- C10 witness: the sample bulk response has no "messageIds" key and a
"results" field, and its extracted message IDs are exactly the truthy
messageId values of the results entries. -/
theorem C10_message_ids_witness :
    message_ids sampleResp
      = ((sampleResp.results.getD []).filterMap ResultEntry.messageId).filter
          (fun s => s != "") :=
  (C10_message_ids envAllOk sampleResp rfl).1 rfl rfl
